import Mathlib

/-!
Shallow embedding of the NHL shot-scraping / feature-processing pipeline
(`src/shot_scraper.py` and `src/feature_processor.py`) and proofs about it.

Conventions of the embedding:
* Python exceptions that a caller catches are modelled by `Option` results
  (`none` = an exception was raised).
* Python dicts used as caches are modelled by association lists whose lookup
  takes the most-recently-inserted binding.
* Floating-point arithmetic of `get_danger_zone` is modelled exactly over `ℚ`
  (the source compares integers against the line `-0.8·|x| + 77.2`).
* `np.sqrt` / `np.arctan2` produce irrational values used by no claim; they
  are carried symbolically (the squared distance, and the arguments of the
  arctangent) so that every definition stays computable.
-/

/-- Characters of a Python string slice `s[a:b]`: Python slicing never raises,
it just truncates, which is exactly `List.drop`/`List.take`. -/
def pySlice (s : String) (a b : Nat) : List Char :=
  (s.toList.drop a).take (b - a)

/-- The ASCII whitespace characters Python strips around an integer literal. -/
def pyWhitespace (c : Char) : Bool :=
  c == ' ' || c == '\t' || c == '\n' || c == '\r' || c == '\x0b' || c == '\x0c'

/-- A nonempty run of ASCII decimal digits and its value. -/
def pyDigits (cs : List Char) : Option Nat :=
  if cs ≠ [] ∧ cs.all Char.isDigit then
    some (cs.foldl (fun n c => n * 10 + (c.toNat - 48)) 0)
  else none

/-- The body of a Python integer literal after stripping: an optional single
sign followed by a nonempty digit run. -/
def pyIntCore (cs : List Char) : Option Int :=
  match cs with
  | [] => none
  | c :: rest =>
    if c = '+' then (pyDigits rest).map (fun n => (n : Int))
    else if c = '-' then (pyDigits rest).map (fun n => -(n : Int))
    else (pyDigits (c :: rest)).map (fun n => (n : Int))

/-- Leading and trailing whitespace removal, as Python `int(...)` performs. -/
def pyStrip (cs : List Char) : List Char :=
  ((cs.dropWhile pyWhitespace).reverse.dropWhile pyWhitespace).reverse

/-- Models CPython `int(...)` on a base-10 string: strip surrounding
whitespace, accept an optional single `+`/`-` sign followed by a nonempty run
of ASCII digits (so `int("-1") = -1` and `int(" 1 ") = 1`), and raise
`ValueError` (`none`) on anything else. Non-ASCII digit and whitespace
categories lie outside the timestamp alphabet and are not modelled, and the
underscore-grouping rule needs a digit on both sides of the underscore — at
least three characters — so it can never accept the two-character slices
`second_diff` extracts. -/
def pyInt (cs : List Char) : Option Int :=
  pyIntCore (pyStrip cs)

/-- Embeds `NHLShotScraper.second_diff`: parses `time1[:2]`, `time1[3:5]`,
`time2[:2]`, `time2[3:5]` with `int(...)` and returns the absolute difference
in seconds; `none` models the `ValueError` escaping when a slice is not a
valid integer literal. -/
def second_diff (time1 time2 : String) : Option Nat :=
  match pyInt (pySlice time1 0 2), pyInt (pySlice time1 3 5),
        pyInt (pySlice time2 0 2), pyInt (pySlice time2 3 5) with
  | some m1, some s1, some m2, some s2 =>
      some ((m2 * 60 + s2 - (m1 * 60 + s1)).natAbs)
  | _, _, _, _ => none

/-- Embeds the `details` dict of a play-by-play event; `.get` accesses are
`Option`-valued fields. -/
structure PlayDetails where
  eventOwnerTeamId : Option Int
  zoneCode : Option String
  scoringPlayerId : Option Int
  shootingPlayerId : Option Int
  xCoord : Option Int
  yCoord : Option Int
  shotType : Option String
  goalieInNetId : Option Int
deriving DecidableEq

/-- Embeds one play-by-play event as consumed by the scraper. -/
structure PlayEvent where
  typeDescKey : String
  timeInPeriod : String
  situationCode : String
  homeTeamDefendingSide : String
  details : PlayDetails
deriving DecidableEq

/-- Embeds `NHLShotScraper.is_rebound`; `none` models `second_diff` raising on
a malformed timestamp (the exception propagates to the per-event handler). -/
def is_rebound (play : PlayEvent) (prev : Option PlayEvent) : Option Nat :=
  match prev with
  | none => some 0
  | some pp =>
    match second_diff play.timeInPeriod pp.timeInPeriod with
    | none => none
    | some td =>
      if pp.typeDescKey = "blocked-shot" ∧ td ≤ 2 then some 1
      else if (pp.typeDescKey = "missed-shot" ∨ pp.typeDescKey = "shot-on-goal") ∧ td ≤ 3 then
        some 1
      else some 0

/-- The stoppage-class event types of `is_rush`. -/
def stoppages : List String :=
  ["stoppage", "faceoff", "goal", "penalty", "period-start", "period-end", "game-end"]

/-- Embeds `NHLShotScraper.is_rush`; `none` models `second_diff` raising. -/
def is_rush (play : PlayEvent) (prev : Option PlayEvent) : Option Nat :=
  match prev with
  | none => some 0
  | some pp =>
    if pp.typeDescKey ∈ stoppages then some 0
    else
      match second_diff play.timeInPeriod pp.timeInPeriod with
      | none => none
      | some td =>
        if td > 4 then some 0
        else
          match pp.details.zoneCode with
          | none => some 0
          | some z =>
            if z = "N" then some 1
            else if z = "D" ∧ pp.details.eventOwnerTeamId = play.details.eventOwnerTeamId then
              some 1
            else if z = "O" ∧ pp.details.eventOwnerTeamId ≠ play.details.eventOwnerTeamId then
              some 1
            else some 0

/-- Embeds `NHLShotScraper.get_danger_zone` with exact rational arithmetic in
place of Python floats (the decimal literals are exact in `ℚ`). -/
def get_danger_zone (x y : ℚ) : String :=
  if 69 ≤ |x| ∧ |x| ≤ 89 ∧ |y| ≤ 6 then "high"
  else if 69 ≤ |x| ∧ |x| ≤ 89 ∧ 6 < |y| ∧ |y| ≤ 22 then
    if |y| ≤ -0.8 * |x| + 77.2 then "med" else "low"
  else if 44 ≤ |x| ∧ |x| < 69 ∧ |y| ≤ 22 then "med"
  else "low"

/-- Embeds the payload the external player-stats provider returns for one
player, reduced to the fields `get_player_stats` reads. A provider call that
raises, or a payload missing one of the always-read keys, is modelled by the
provider returning `none`; the nullable career percentages stay `Option`. -/
structure PlayerInfo where
  firstName : String
  lastName : String
  position : String
  shootsCatches : String
  savePctg : Option ℚ
  shootingPctg : Option ℚ
deriving DecidableEq

/-- Role-specific stats triple `[position, shootsCatches, pct]`. -/
abbrev Stats := String × String × Option ℚ

/-- The scraper's pair of caches `player_dict` / `player_stats_cache`, merged
into one association list from player id to (display name, stats) — the two
dicts are always written together with the same key. -/
abbrev Cache := List (Int × (String × Stats))

/-- Lookup in the cache, taking the most recent binding (Python dict
semantics for the keys ever inserted). -/
def cacheLookup : Cache → Int → Option (String × Stats)
  | [], _ => none
  | (k, v) :: rest, pid => if k = pid then some v else cacheLookup rest pid

/-- The stats triple `get_player_stats` derives from a provider payload:
save percentage for goaltenders, shooting percentage otherwise. -/
def statsOf (info : PlayerInfo) : Stats :=
  if info.position = "G" then (info.position, info.shootsCatches, info.savePctg)
  else (info.position, info.shootsCatches, info.shootingPctg)

/-- The (display name, stats triple) pair derived from a provider payload,
with the name assembled as `firstName["default"] + " " + lastName["default"]`. -/
def entryOf (info : PlayerInfo) : String × Stats :=
  (info.firstName ++ " " ++ info.lastName, statsOf info)

/-- Embeds `NHLShotScraper.get_player_stats`: cache hit returns the stored
pair and leaves the cache unchanged; cache miss calls the provider, derives
the stats triple, stores both entries and returns them; a provider error
(`none`) propagates before anything is stored. -/
def get_player_stats (provider : Int → Option PlayerInfo) (cache : Cache) (pid : Int) :
    Option ((String × Stats) × Cache) :=
  match cacheLookup cache pid with
  | some entry => some (entry, cache)
  | none =>
    match provider pid with
    | none => none
    | some info => some (entryOf info, (pid, entryOf info) :: cache)

/-- A run of consecutive `get_player_stats` lookups (as the scraper performs
across events, catching provider errors per lookup). Returns the list of
player ids for which an external provider call was made — a call happens
exactly on a cache miss — together with the final cache. -/
def runLookups (provider : Int → Option PlayerInfo) : Cache → List Int → List Int × Cache
  | cache, [] => ([], cache)
  | cache, pid :: rest =>
    let called := (cacheLookup cache pid).isNone
    let cache1 := match get_player_stats provider cache pid with
                  | some (_, c) => c
                  | none => cache
    let (calls, cache2) := runLookups provider cache1 rest
    (if called then pid :: calls else calls, cache2)

/-- The three qualifying Fenwick event types. -/
def fenwickTypes : List String := ["missed-shot", "goal", "shot-on-goal"]

/-- Character `i` of a Python string (`s[i]`); `none` models `IndexError`. -/
def sChar (s : String) (i : Nat) : Option Char :=
  s.toList.get? i

/-- Python `int(...)` on a single character of the situation code. -/
def charDigit (c : Char) : Option Nat :=
  if c.isDigit then some (c.toNat - 48) else none

/-- Embeds the short-circuiting skip test
`(home == 1 and play["situationCode"][0] == "0") or
 (away == 1 and play["situationCode"][3] == "0")`;
`none` models an `IndexError` from an evaluated index. -/
def situationSkip (home away : Nat) (sc : String) : Option Bool :=
  match (if home = 1 then (sChar sc 0).map (fun c => c == '0') else some false) with
  | none => none
  | some true => some true
  | some false =>
    if away = 1 then (sChar sc 3).map (fun c => c == '0') else some false

/-- Embeds one row appended by `scrape_fenwick_shots` (the raw shot table
schema). -/
structure ShotRow where
  game_id : Int
  team_id : Int
  home : Nat
  home_def_side : String
  last_play : Option String
  rebound : Nat
  rush : Nat
  home_skaters : Nat
  away_skaters : Nat
  x_coord : Int
  y_coord : Int
  shooter_id : Int
  shooter : String
  position : String
  shoots : String
  career_shooting_pct : Option ℚ
  goalie_id : Option Int
  goalie : Option String
  goalie_catches : Option String
  career_save_pct : Option ℚ
  shot_type : Option String
  zone : Option String
  shot_class : String
  danger_zone : String
deriving DecidableEq

/-- Embeds the body of the per-event loop of `scrape_fenwick_shots` for one
play: returns the appended row (`none` = the event was skipped, by a
`continue` or by the per-event `except` handler) together with the updated
player cache — cache writes persist even when a later step skips the event. -/
def processEvent (provider : Int → Option PlayerInfo) (cache : Cache)
    (game_id homeId awayId : Int) (prev : Option PlayEvent) (play : PlayEvent) :
    Option ShotRow × Cache :=
  if play.typeDescKey ∈ fenwickTypes then
    match play.details.eventOwnerTeamId with
    | none => (none, cache)
    | some team_id =>
      let home : Nat := if team_id = homeId then 1 else 0
      let away : Nat := if team_id = awayId then 1 else 0
      match situationSkip home away play.situationCode with
      | none => (none, cache)
      | some true => (none, cache)
      | some false =>
        match (if play.typeDescKey = "goal" then play.details.scoringPlayerId
               else play.details.shootingPlayerId) with
        | none => (none, cache)
        | some shooter_id =>
          match get_player_stats provider cache shooter_id with
          | none => (none, cache)
          | some ((shooter, shooter_stats), cache1) =>
            match is_rebound play prev, is_rush play prev with
            | some rebound, some rush =>
              match play.details.xCoord, play.details.yCoord with
              | some x, some y =>
                match (sChar play.situationCode 2).bind charDigit,
                      (sChar play.situationCode 1).bind charDigit with
                | some home_skaters, some away_skaters =>
                  let finish : Option (String × Stats) × Cache → Option ShotRow × Cache :=
                    fun (goalieRes, cache2) =>
                      (some {
                        game_id := game_id
                        team_id := team_id
                        home := home
                        home_def_side := play.homeTeamDefendingSide
                        last_play := prev.map (fun pp => pp.typeDescKey)
                        rebound := rebound
                        rush := rush
                        home_skaters := home_skaters
                        away_skaters := away_skaters
                        x_coord := x
                        y_coord := y
                        shooter_id := shooter_id
                        shooter := shooter
                        position := shooter_stats.1
                        shoots := shooter_stats.2.1
                        career_shooting_pct := shooter_stats.2.2
                        goalie_id := play.details.goalieInNetId
                        goalie := goalieRes.map (fun g => g.1)
                        goalie_catches := goalieRes.map (fun g => g.2.2.1)
                        career_save_pct := goalieRes.bind (fun g => g.2.2.2)
                        shot_type := play.details.shotType
                        zone := play.details.zoneCode
                        shot_class := play.typeDescKey
                        danger_zone := get_danger_zone (x : ℚ) (y : ℚ) }, cache2)
                  match play.details.goalieInNetId with
                  | some gid =>
                    if gid ≠ 0 then
                      match get_player_stats provider cache1 gid with
                      | none => (none, cache1)
                      | some (goalieEntry, cache2) => finish (some goalieEntry, cache2)
                    else finish (none, cache1)
                  | none => finish (none, cache1)
                | _, _ => (none, cache1)
              | _, _ => (none, cache1)
            | _, _ => (none, cache1)
  else (none, cache)

/-- Folds `processEvent` over a game's play sequence in order, threading the
cache and remembering each play as the next one's preceding event
(`pbp[idx - 1]`). -/
def processPlays (provider : Int → Option PlayerInfo) (game_id homeId awayId : Int) :
    List PlayEvent → Option PlayEvent → Cache → List ShotRow × Cache
  | [], _, cache => ([], cache)
  | play :: rest, prev, cache =>
    let (row, cache1) := processEvent provider cache game_id homeId awayId prev play
    let (rows, cache2) := processPlays provider game_id homeId awayId rest (some play) cache1
    (row.toList ++ rows, cache2)

/-- One fetched game: home/away team ids and the ordered play sequence. -/
structure GameData where
  homeId : Int
  awayId : Int
  plays : List PlayEvent
deriving DecidableEq

/-- Embeds the game loop of `scrape_fenwick_shots`: `none` records that some
game's fetch raised, which makes the whole run return an empty table. -/
def scrapeAux (provider : Int → Option PlayerInfo) (fetch : Int → Option GameData) :
    List Int → Cache → Option (List ShotRow × Cache)
  | [], cache => some ([], cache)
  | gid :: rest, cache =>
    match fetch gid with
    | none => none
    | some gd =>
      let (rows, cache1) := processPlays provider gid gd.homeId gd.awayId gd.plays none cache
      match scrapeAux provider fetch rest cache1 with
      | none => none
      | some (rows2, cache2) => some (rows ++ rows2, cache2)

/-- Embeds `NHLShotScraper.scrape_fenwick_shots`: the assembled flat shot
table, or the empty table as soon as any game's play-by-play fetch fails
(`return pd.DataFrame()` discards all previously assembled rows). -/
def scrape_fenwick_shots (provider : Int → Option PlayerInfo)
    (fetch : Int → Option GameData) (game_ids : List Int) (cache : Cache) : List ShotRow :=
  match scrapeAux provider fetch game_ids cache with
  | none => []
  | some (rows, _) => rows

/-- The `XGProcessor.danger_map` dict as a partial map; a key outside the dict
maps to `none` (pandas `Series.map` would produce `NaN` there). -/
def danger_map (z : String) : Option Int :=
  if z = "low" then some 1
  else if z = "med" then some 2
  else if z = "high" then some 3
  else none

/-- The shot-angle column of `XGProcessor.add_shot_angle`, carried
symbolically: the source stores `90.0` when `89 - |x| ≤ 0` and otherwise
`degrees(arctan2(|y|, |89 - x_abs|)).round(3)`, an irrational float that no
claim inspects, so only the branch and the arctangent's integer arguments are
kept. -/
inductive AngleVal where
  | deg90 : AngleVal
  | arctanDeg (yAbs dxAbs : Nat) : AngleVal
deriving DecidableEq

/-- Embeds one row of the model-ready table produced by
`XGProcessor.processFenwick`: exactly the columns that survive the final
`drop`. `distance_sq` carries `x_coord**2 + y_coord**2`, the square of the
`np.sqrt` distance column. -/
structure ProcRow where
  home : Nat
  last_play : Option String
  rebound : Nat
  rush : Nat
  home_skaters : Nat
  away_skaters : Nat
  position : String
  career_shooting_pct : Option ℚ
  career_save_pct : Option ℚ
  shot_type : Option String
  shot_class : String
  danger_zone : String
  shot_on_glove : String
  distance_sq : Int
  shot_angle : AngleVal
  danger_numeric : Option Int
  shot_value : Option Int
  situation : String
deriving DecidableEq

/-- The `situation` value `XGProcessor.add_situation` assigns to a row:
default `EV`, overridden to `PP` / `SH` by comparing shooting-team and
defending-team skater counts selected by the `home` flag. -/
def situationOf (r : ShotRow) : String :=
  let shooting := if r.home = 1 then r.home_skaters else r.away_skaters
  let defending := if r.home = 1 then r.away_skaters else r.home_skaters
  if shooting > defending then "PP"
  else if shooting < defending then "SH"
  else "EV"

/-- The derived columns `processFenwick` attaches to one retained row, given
the row's `shot_on_glove` string computed in step 1. -/
def mkProcRow (r : ShotRow) (glove : String) : ProcRow :=
  { home := r.home
    last_play := r.last_play
    rebound := r.rebound
    rush := r.rush
    home_skaters := r.home_skaters
    away_skaters := r.away_skaters
    position := r.position
    career_shooting_pct := r.career_shooting_pct
    career_save_pct := r.career_save_pct
    shot_type := r.shot_type
    shot_class := r.shot_class
    danger_zone := r.danger_zone
    shot_on_glove := glove
    distance_sq := r.x_coord ^ 2 + r.y_coord ^ 2
    shot_angle :=
      if 89 - |r.x_coord| ≤ 0 then AngleVal.deg90
      else AngleVal.arctanDeg r.y_coord.natAbs (89 - |r.x_coord|).natAbs
    danger_numeric := danger_map r.danger_zone
    shot_value := (danger_map r.danger_zone).map
      (fun n => n + (r.rebound : Int) + (r.rush : Int))
    situation := situationOf r }

/-- Step 1 of `processFenwick`: `df["shot_on_glove"] = df["shoots"] +
df["goalie_catches"]`, evaluated over every input row before any filtering.
Adding a string and `None` raises a `TypeError` in pandas, so the whole step
(and with it `processFenwick`) fails (`none`) as soon as any row carries the
`None` goalie-catches placeholder. -/
def withGlove : List ShotRow → Option (List (ShotRow × String))
  | [] => some []
  | r :: rest =>
    match r.goalie_catches with
    | none => none
    | some c =>
      match withGlove rest with
      | none => none
      | some rs => some ((r, r.shoots ++ c) :: rs)

/-- Embeds `XGProcessor.processFenwick`: compute `shot_on_glove` over all
rows, coerce the (already integral) skater counts, filter rows with fewer
than 3 skaters on either side, filter rows with no goaltender id, then attach
distance, shot angle, shot value and situation and drop the identifier
columns. `none` models the run raising. -/
def processFenwick (df : List ShotRow) : Option (List ProcRow) :=
  match withGlove df with
  | none => none
  | some rows =>
    some (((((rows.filter (fun rc => 3 ≤ rc.1.home_skaters)).filter
        (fun rc => 3 ≤ rc.1.away_skaters)).filter
        (fun rc => rc.1.goalie_id.isSome)).map
        (fun rc => mkProcRow rc.1 rc.2)))

/-- Fixture: a provider payload for a skater. -/
def skaterInfo : PlayerInfo :=
  { firstName := "Sample"
    lastName := "Skater"
    position := "C"
    shootsCatches := "R"
    savePctg := none
    shootingPctg := some 12 }

/-- Fixture: a provider that answers every id with `skaterInfo`. -/
def sampleProvider : Int → Option PlayerInfo := fun _ => some skaterInfo

/-- Fixture: a qualifying shot-on-goal play whose situation code carries a
`0` home-skaters digit (index 2) but a nonzero character at index 0. -/
def zeroSkaterPlay : PlayEvent :=
  { typeDescKey := "shot-on-goal"
    timeInPeriod := "05:10"
    situationCode := "1501"
    homeTeamDefendingSide := "left"
    details :=
      { eventOwnerTeamId := some 100
        zoneCode := some "O"
        scoringPlayerId := none
        shootingPlayerId := some 10
        xCoord := some 80
        yCoord := some 0
        shotType := some "wrist"
        goalieInNetId := none } }

/-- Fixture: a game consisting of the single play `zeroSkaterPlay`, with the
shooting team as the home team. -/
def sampleGame : GameData :=
  { homeId := 100, awayId := 200, plays := [zeroSkaterPlay] }

/-- Fixture: a raw shot row with a resolvable goaltender, five skaters per
side, a medium danger zone, no rebound and a rush. -/
def sampleRow : ShotRow :=
  { game_id := 1
    team_id := 100
    home := 1
    home_def_side := "left"
    last_play := some "hit"
    rebound := 0
    rush := 1
    home_skaters := 5
    away_skaters := 5
    x_coord := 50
    y_coord := 10
    shooter_id := 10
    shooter := "Sample Skater"
    position := "C"
    shoots := "R"
    career_shooting_pct := some 12
    goalie_id := some 20
    goalie := some "Sample Goalie"
    goalie_catches := some "L"
    career_save_pct := some 91
    shot_type := some "wrist"
    zone := some "O"
    shot_class := "shot-on-goal"
    danger_zone := "med" }

/-- Fixture: `sampleRow` with the `(None, None, None)` goaltender placeholder
the extractor emits when no goaltender is on net. -/
def placeholderRow : ShotRow :=
  { sampleRow with
    goalie_id := none
    goalie := none
    goalie_catches := none
    career_save_pct := none }

/-- Decimal value of a digit character, as Python `int` computes it. -/
def digitVal (c : Char) : Nat := c.toNat - 48

/-- Fixture: a non-stoppage preceding event in the neutral zone, two seconds
before `zeroSkaterPlay`. -/
def rushPrevPlay : PlayEvent :=
  { typeDescKey := "hit"
    timeInPeriod := "05:08"
    situationCode := "1551"
    homeTeamDefendingSide := "left"
    details :=
      { eventOwnerTeamId := some 200
        zoneCode := some "N"
        scoringPlayerId := none
        shootingPlayerId := none
        xCoord := none
        yCoord := none
        shotType := none
        goalieInNetId := none } }

/-- Fixture: the same preceding event as a faceoff (a stoppage-class type). -/
def faceoffPrevPlay : PlayEvent :=
  { rushPrevPlay with typeDescKey := "faceoff" }

/-- Fixture: a cache entry for the sample skater. -/
def cachedEntry : String × Stats := ("Sample Skater", ("C", "R", some 12))

/-- Fixture: a fetcher that knows game 5 and fails on every other game id. -/
def failingFetch : Int → Option GameData :=
  fun g => if g = 5 then some sampleGame else none

/-- Fixture: `zeroSkaterPlay` with a situation code whose first character is
`0`, which triggers the scraper's skip condition for a home shooter. -/
def skipPlay : PlayEvent :=
  { zeroSkaterPlay with situationCode := "0551" }

/-- C2 (amended): the danger-zone classifier returns high on the band
`69 ≤ |x| ≤ 89`, `|y| ≤ 6`; the upper bound on `|x|` is required (see the
counterexample at `x = 95`). -/
theorem get_danger_zone_high_band (x y : ℚ) (h1 : 69 ≤ |x|) (h2 : |x| ≤ 89)
    (h3 : |y| ≤ 6) : get_danger_zone x y = "high" := by
  unfold get_danger_zone
  rw [if_pos ⟨h1, h2, h3⟩]

/-- C2 witness: the shot at (85, 3) is classified high. -/
theorem get_danger_zone_high_band_witness : get_danger_zone 85 3 = "high" :=
  get_danger_zone_high_band 85 3 (by norm_num) (by norm_num) (by norm_num)

/-- C2 counterexample: (95, 0) satisfies `|x| ≥ 69` and `|y| ≤ 6` yet is
classified low, not high — the claim's "no upper bound on |x|" fails. -/
theorem get_danger_zone_far_x_low :
    (69 : ℚ) ≤ |(95 : ℚ)| ∧ |(0 : ℚ)| ≤ 6 ∧ get_danger_zone 95 0 = "low" := by
  refine ⟨by norm_num, by norm_num, ?_⟩
  have h95 : |(95 : ℚ)| = 95 := abs_of_nonneg (by norm_num)
  have h0 : |(0 : ℚ)| = 0 := abs_of_nonneg le_rfl
  unfold get_danger_zone
  rw [if_neg, if_neg, if_neg]
  · rintro ⟨-, h, -⟩; rw [h95] at h; norm_num at h
  · rintro ⟨-, -, h, -⟩; rw [h0] at h; norm_num at h
  · rintro ⟨-, h, -⟩; rw [h95] at h; norm_num at h

/-- C3: on the outer band `69 ≤ |x| ≤ 89`, `6 < |y| ≤ 22` the classifier
compares `|y|` with the line `-0.8·|x| + 77.2` (at or under gives med, above
gives low); on `44 ≤ |x| < 69` it returns med for `|y| ≤ 22` and low for
`|y| > 22`. -/
theorem get_danger_zone_med_low_bands (x y : ℚ) :
    (69 ≤ |x| → |x| ≤ 89 → 6 < |y| → |y| ≤ 22 →
      ((|y| ≤ -0.8 * |x| + 77.2 → get_danger_zone x y = "med") ∧
       (¬ |y| ≤ -0.8 * |x| + 77.2 → get_danger_zone x y = "low"))) ∧
    (44 ≤ |x| → |x| < 69 → |y| ≤ 22 → get_danger_zone x y = "med") ∧
    (44 ≤ |x| → |x| < 69 → 22 < |y| → get_danger_zone x y = "low") := by
  refine ⟨fun h69 h89 h6 h22 => ?_, fun h44 h69 h22 => ?_, fun h44 h69 h22 => ?_⟩
  · have hA : ¬(69 ≤ |x| ∧ |x| ≤ 89 ∧ |y| ≤ 6) := fun h => absurd h.2.2 (not_le.mpr h6)
    constructor
    · intro hb
      unfold get_danger_zone
      rw [if_neg hA, if_pos ⟨h69, h89, h6, h22⟩, if_pos hb]
    · intro hb
      unfold get_danger_zone
      rw [if_neg hA, if_pos ⟨h69, h89, h6, h22⟩, if_neg hb]
  · have hA : ¬(69 ≤ |x| ∧ |x| ≤ 89 ∧ |y| ≤ 6) := fun h => absurd h.1 (not_le.mpr h69)
    have hB : ¬(69 ≤ |x| ∧ |x| ≤ 89 ∧ 6 < |y| ∧ |y| ≤ 22) := fun h => absurd h.1 (not_le.mpr h69)
    unfold get_danger_zone
    rw [if_neg hA, if_neg hB, if_pos ⟨h44, h69, h22⟩]
  · have hA : ¬(69 ≤ |x| ∧ |x| ≤ 89 ∧ |y| ≤ 6) := fun h => absurd h.1 (not_le.mpr h69)
    have hB : ¬(69 ≤ |x| ∧ |x| ≤ 89 ∧ 6 < |y| ∧ |y| ≤ 22) := fun h => absurd h.1 (not_le.mpr h69)
    have hC : ¬(44 ≤ |x| ∧ |x| < 69 ∧ |y| ≤ 22) := fun h => absurd h.2.2 (not_le.mpr h22)
    unfold get_danger_zone
    rw [if_neg hA, if_neg hB, if_neg hC]

/-- C3 witness: (80, 10) is under the line (13.2) hence med; (80, 20) is
above it hence low; (50, 10) is med; (50, 23) is low. -/
theorem get_danger_zone_med_low_bands_witness :
    get_danger_zone 80 10 = "med" ∧ get_danger_zone 80 20 = "low" ∧
    get_danger_zone 50 10 = "med" ∧ get_danger_zone 50 23 = "low" :=
  ⟨((get_danger_zone_med_low_bands 80 10).1 (by norm_num) (by norm_num) (by norm_num)
      (by norm_num)).1 (by norm_num),
   ((get_danger_zone_med_low_bands 80 20).1 (by norm_num) (by norm_num) (by norm_num)
      (by norm_num)).2 (by norm_num),
   (get_danger_zone_med_low_bands 50 10).2.1 (by norm_num) (by norm_num) (by norm_num),
   (get_danger_zone_med_low_bands 50 23).2.2 (by norm_num) (by norm_num) (by norm_num)⟩

/-- C4: the rebound test returns 0 when there is no preceding event, and
returns 1 exactly when the preceding event exists and is a blocked shot at
most 2 seconds earlier, or a missed shot / shot on goal at most 3 seconds
earlier (elapsed time as computed by `second_diff`). -/
theorem is_rebound_spec (play : PlayEvent) (prev : Option PlayEvent) :
    is_rebound play none = some 0 ∧
    (is_rebound play prev = some 1 ↔ ∃ pp td, prev = some pp ∧
      second_diff play.timeInPeriod pp.timeInPeriod = some td ∧
      ((pp.typeDescKey = "blocked-shot" ∧ td ≤ 2) ∨
       ((pp.typeDescKey = "missed-shot" ∨ pp.typeDescKey = "shot-on-goal") ∧ td ≤ 3))) := by
  refine ⟨rfl, ?_⟩
  cases prev with
  | none => simp [is_rebound]
  | some pp =>
    cases hsd : second_diff play.timeInPeriod pp.timeInPeriod with
    | none =>
      simp only [is_rebound, hsd]
      refine iff_of_false (by simp) ?_
      rintro ⟨pp2, td, hpp, hsd2, -⟩
      injection hpp with h
      subst h
      rw [hsd] at hsd2
      exact Option.noConfusion hsd2
    | some td =>
      simp only [is_rebound, hsd]
      by_cases h1 : pp.typeDescKey = "blocked-shot" ∧ td ≤ 2
      · rw [if_pos h1]
        exact iff_of_true rfl ⟨pp, td, rfl, hsd, Or.inl h1⟩
      · rw [if_neg h1]
        by_cases h2 : (pp.typeDescKey = "missed-shot" ∨ pp.typeDescKey = "shot-on-goal") ∧ td ≤ 3
        · rw [if_pos h2]
          exact iff_of_true rfl ⟨pp, td, rfl, hsd, Or.inr h2⟩
        · rw [if_neg h2]
          refine iff_of_false (by simp) ?_
          rintro ⟨pp2, td2, hpp, hsd2, hcase⟩
          injection hpp with h
          subst h
          rw [hsd] at hsd2
          injection hsd2 with h
          subst h
          exact hcase.elim h1 h2

/-- C5: the rush test returns 0 with no preceding event, for a
stoppage-class preceding event, when elapsed time exceeds 4 seconds, and
when the preceding event's zone is unknown; otherwise it returns 1 exactly
when the preceding event was in the neutral zone, in the defensive zone with
the same owning team as the shot, or in the offensive zone with a different
owning team. -/
theorem is_rush_spec (play pp : PlayEvent) (td : Nat) :
    is_rush play none = some 0 ∧
    (pp.typeDescKey ∈ stoppages → is_rush play (some pp) = some 0) ∧
    (second_diff play.timeInPeriod pp.timeInPeriod = some td → 4 < td →
      is_rush play (some pp) = some 0) ∧
    (second_diff play.timeInPeriod pp.timeInPeriod = some td →
      pp.details.zoneCode = none → is_rush play (some pp) = some 0) ∧
    (pp.typeDescKey ∉ stoppages →
      second_diff play.timeInPeriod pp.timeInPeriod = some td → td ≤ 4 →
      (is_rush play (some pp) = some 1 ↔ ∃ z, pp.details.zoneCode = some z ∧
        (z = "N" ∨
         (z = "D" ∧ pp.details.eventOwnerTeamId = play.details.eventOwnerTeamId) ∨
         (z = "O" ∧ pp.details.eventOwnerTeamId ≠ play.details.eventOwnerTeamId)))) := by
  refine ⟨rfl, fun hst => by simp [is_rush, hst], fun hsd h4 => ?_, fun hsd hz => ?_,
    fun hst hsd hle => ?_⟩
  · by_cases hst : pp.typeDescKey ∈ stoppages
    · simp [is_rush, hst]
    · simp [is_rush, hst, hsd, h4]
  · by_cases hst : pp.typeDescKey ∈ stoppages
    · simp [is_rush, hst]
    · simp only [is_rush, if_neg hst, hsd, hz]
      split <;> rfl
  · simp only [is_rush, if_neg hst, hsd]
    rw [if_neg (by omega : ¬ td > 4)]
    split
    next hzc =>
      refine iff_of_false (by simp) ?_
      rintro ⟨z, hz2, -⟩
      rw [hzc] at hz2
      exact Option.noConfusion hz2
    next z hzc =>
      by_cases hN : z = "N"
      · rw [if_pos hN]
        exact iff_of_true rfl ⟨z, hzc, Or.inl hN⟩
      · rw [if_neg hN]
        by_cases hD : z = "D" ∧ pp.details.eventOwnerTeamId = play.details.eventOwnerTeamId
        · rw [if_pos hD]
          exact iff_of_true rfl ⟨z, hzc, Or.inr (Or.inl hD)⟩
        · rw [if_neg hD]
          by_cases hO : z = "O" ∧ pp.details.eventOwnerTeamId ≠ play.details.eventOwnerTeamId
          · rw [if_pos hO]
            exact iff_of_true rfl ⟨z, hzc, Or.inr (Or.inr hO)⟩
          · rw [if_neg hO]
            refine iff_of_false (by simp) ?_
            rintro ⟨z2, hz2, hcase⟩
            rw [hzc] at hz2
            injection hz2 with h
            subst h
            exact hcase.elim hN (fun hc => hc.elim hD hO)

/-- C5 witness: a neutral-zone hit two seconds earlier makes a rush; the
same preceding event as a faceoff does not. -/
theorem is_rush_spec_witness :
    is_rush zeroSkaterPlay (some faceoffPrevPlay) = some 0 ∧
    is_rush zeroSkaterPlay (some rushPrevPlay) = some 1 :=
  ⟨(is_rush_spec zeroSkaterPlay faceoffPrevPlay 0).2.1 (by decide),
   ((is_rush_spec zeroSkaterPlay rushPrevPlay 2).2.2.2.2 (by decide) (by decide)
      (by decide)).mpr ⟨"N", rfl, Or.inl rfl⟩⟩

/-- Helper: a digit character is not a plus sign. -/
theorem digit_ne_plus {c : Char} (h : c.isDigit = true) : ¬ c = '+' := by
  intro he
  subst he
  exact absurd h (by decide)

/-- Helper: a digit character is not a minus sign. -/
theorem digit_ne_minus {c : Char} (h : c.isDigit = true) : ¬ c = '-' := by
  intro he
  subst he
  exact absurd h (by decide)

/-- Helper: a digit character is not whitespace. -/
theorem digit_not_ws {c : Char} (h : c.isDigit = true) : pyWhitespace c = false := by
  cases hw : pyWhitespace c
  · rfl
  · exfalso
    simp only [pyWhitespace, Bool.or_eq_true, beq_iff_eq] at hw
    rcases hw with ((((h1 | h1) | h1) | h1) | h1) | h1 <;> (subst h1; exact absurd h (by decide))

/-- Helper: `pyInt` on a two-digit slice. -/
theorem pyInt_pair (a b : Char) (ha : a.isDigit = true) (hb : b.isDigit = true) :
    pyInt [a, b] = some ((10 * digitVal a + digitVal b : Nat) : Int) := by
  have hstrip : pyStrip [a, b] = [a, b] := by
    simp [pyStrip, List.dropWhile_cons, digit_not_ws ha, digit_not_ws hb]
  simp only [pyInt, hstrip]
  simp only [pyIntCore, if_neg (digit_ne_plus ha), if_neg (digit_ne_minus ha)]
  simp [pyDigits, ha, hb, digitVal]
  omega

/-- C9 (amended): on well-formed `MM:SS` timestamps `second_diff` returns the
absolute difference in seconds, and it fails when `int(...)` rejects one of
the parsed slices — in particular it fails on every first timestamp shorter
than four characters (its `[3:5]` slice is empty) and on non-numeric slices
such as `ab`/`cd` — but it does not reject every malformed input: length is
never checked (see the overlong-input counterexample). -/
theorem second_diff_spec : ∀ a b c d e f g h : Char,
    (a.isDigit = true → b.isDigit = true → c.isDigit = true → d.isDigit = true →
      e.isDigit = true → f.isDigit = true → g.isDigit = true → h.isDigit = true →
      second_diff (String.mk [a, b, ':', c, d]) (String.mk [e, f, ':', g, h]) =
        some ((((10 * digitVal e + digitVal f : Nat) : Int) * 60 +
                ((10 * digitVal g + digitVal h : Nat) : Int) -
               (((10 * digitVal a + digitVal b : Nat) : Int) * 60 +
                ((10 * digitVal c + digitVal d : Nat) : Int))).natAbs)) ∧
    (∀ t1 t2 : String, t1.toList.length ≤ 3 → second_diff t1 t2 = none) ∧
    second_diff "ab:cd" "10:00" = none := by
  intro a b c d e f g h
  refine ⟨?_, ?_, by decide⟩
  · intro ha hb hc hd he hf hg hh
    have h1 : pySlice (String.mk [a, b, ':', c, d]) 0 2 = [a, b] := rfl
    have h2 : pySlice (String.mk [a, b, ':', c, d]) 3 5 = [c, d] := rfl
    have h3 : pySlice (String.mk [e, f, ':', g, h]) 0 2 = [e, f] := rfl
    have h4 : pySlice (String.mk [e, f, ':', g, h]) 3 5 = [g, h] := rfl
    simp only [second_diff, h1, h2, h3, h4, pyInt_pair a b ha hb, pyInt_pair c d hc hd,
      pyInt_pair e f he hf, pyInt_pair g h hg hh]
  · intro t1 t2 hlen
    have h5 : pySlice t1 3 5 = [] := by
      have hd : t1.toList.drop 3 = [] := List.drop_eq_nil_of_le hlen
      simp only [pySlice]
      rw [hd]
      rfl
    have hp : pyInt (pySlice t1 3 5) = none := by rw [h5]; rfl
    cases h1 : pyInt (pySlice t1 0 2) <;> simp [second_diff, h1, hp]

/-- C9 witness: timestamps two seconds apart give difference 2, and a
three-character first timestamp is rejected. -/
theorem second_diff_spec_witness :
    second_diff "10:00" "10:02" = some 2 ∧ second_diff "123" "10:00" = none := by
  constructor
  · have h := (second_diff_spec '1' '0' '0' '0' '1' '0' '0' '2').1
      rfl rfl rfl rfl rfl rfl rfl rfl
    exact h.trans (by decide)
  · exact (second_diff_spec '0' '0' '0' '0' '0' '0' '0' '0').2.1 "123" "10:00" (by decide)

/-- C9 counterexample: the six-character input `12:345` has the wrong length
for `MM:SS`, yet `second_diff` returns a value instead of failing (it parses
the slices `12`/`34` and `12`/`39`). -/
theorem second_diff_accepts_overlong :
    "12:345".length = 6 ∧ second_diff "12:345" "12:399" = some 5 := by
  exact ⟨by decide, by decide⟩

/-- C6: if the play-by-play fetch fails for any game in the requested list,
`scrape_fenwick_shots` returns the empty table — rows assembled from other
games are discarded, never returned partially. -/
theorem scrape_empty_on_fetch_failure (provider : Int → Option PlayerInfo)
    (fetch : Int → Option GameData) (gids : List Int) (cache : Cache) (g : Int)
    (hg : g ∈ gids) (hf : fetch g = none) :
    scrape_fenwick_shots provider fetch gids cache = [] := by
  have key : ∀ l (c : Cache), g ∈ l → scrapeAux provider fetch l c = none := by
    intro l
    induction l with
    | nil => intro c h; cases h
    | cons hd tl ih =>
      intro c h
      rcases List.mem_cons.mp h with rfl | h2
      · simp [scrapeAux, hf]
      · cases hfh : fetch hd with
        | none => simp [scrapeAux, hfh]
        | some gd =>
          rcases hpp : processPlays provider hd gd.homeId gd.awayId gd.plays none c
            with ⟨rows, cache1⟩
          simp only [scrapeAux, hfh, hpp]
          rw [ih cache1 h2]
  simp [scrape_fenwick_shots, key gids cache hg]

/-- C6 witness: with game 6's fetch failing, scraping games [5, 6] yields the
empty table even though game 5 fetches successfully. -/
theorem scrape_empty_on_fetch_failure_witness :
    scrape_fenwick_shots sampleProvider failingFetch [5, 6] [] = [] :=
  scrape_empty_on_fetch_failure sampleProvider failingFetch [5, 6] [] 6 (by decide) rfl

/-- Helper: cache lookups stay resolvable after a new entry is prepended. -/
theorem cacheLookup_cons_isSome (k : Int) (v : String × Stats) (cache : Cache) (pid : Int)
    (h : (cacheLookup cache pid).isSome = true) :
    (cacheLookup ((k, v) :: cache) pid).isSome = true := by
  by_cases hk : k = pid <;> simp [cacheLookup, hk, h]

/-- Helper: a player id already in the cache is never the subject of an
external call during any later sequence of lookups. -/
theorem runLookups_count_zero (provider : Int → Option PlayerInfo) (ids : List Int) :
    ∀ cache pid, (cacheLookup cache pid).isSome = true →
      ((runLookups provider cache ids).1.count pid) = 0 := by
  induction ids with
  | nil => intro cache pid h; simp [runLookups]
  | cons q rest ih =>
    intro cache pid h
    cases hq : cacheLookup cache q with
    | some e =>
      have hgps : get_player_stats provider cache q = some (e, cache) := by
        simp [get_player_stats, hq]
      have hc := ih cache pid h
      rcases hrl : runLookups provider cache rest with ⟨calls, cache2⟩
      rw [hrl] at hc
      simp only [runLookups, hq, hgps, hrl]
      simpa using hc
    | none =>
      have hqp : q ≠ pid := by
        intro he
        subst he
        rw [hq] at h
        simp at h
      cases hp : provider q with
      | none =>
        have hgps : get_player_stats provider cache q = none := by
          simp [get_player_stats, hq, hp]
        have hc := ih cache pid h
        rcases hrl : runLookups provider cache rest with ⟨calls, cache2⟩
        rw [hrl] at hc
        simp only [runLookups, hq, hgps, hrl]
        simp [List.count_cons, hqp, hc]
      | some infoq =>
        have hgps : get_player_stats provider cache q =
            some (entryOf infoq, (q, entryOf infoq) :: cache) := by
          simp [get_player_stats, hq, hp]
        have hsome := cacheLookup_cons_isSome q (entryOf infoq) cache pid h
        have hc := ih ((q, entryOf infoq) :: cache) pid hsome
        rcases hrl : runLookups provider ((q, entryOf infoq) :: cache) rest
          with ⟨calls, cache2⟩
        rw [hrl] at hc
        simp only [runLookups, hq, hgps, hrl]
        simp [List.count_cons, hqp, hc]


/-- C7 (amended): a cache hit returns the stored tuple with no external call
and an unchanged cache, and for a player id the provider can serve, any
sequence of lookups makes at most one external call for that id — the first
successful call stores the entry and every later lookup hits the cache. A
lookup whose provider call fails stores nothing, so such an id can be
re-queried (see the counterexample). -/
theorem lookup_at_most_one_successful_call (provider : Int → Option PlayerInfo)
    (cache : Cache) (pid : Int) (entry : String × Stats) (info : PlayerInfo)
    (ids : List Int) :
    (cacheLookup cache pid = some entry →
      get_player_stats provider cache pid = some (entry, cache)) ∧
    (provider pid = some info →
      ((runLookups provider cache ids).1.count pid) ≤ 1) := by
  constructor
  · intro h
    simp [get_player_stats, h]
  · intro hp
    induction ids generalizing cache with
    | nil => simp [runLookups]
    | cons q rest ih =>
      by_cases hqpid : q = pid
      · subst hqpid
        cases hq : cacheLookup cache q with
        | some e =>
          have hgps : get_player_stats provider cache q = some (e, cache) := by
            simp [get_player_stats, hq]
          have hc := ih cache
          rcases hrl : runLookups provider cache rest with ⟨calls, cache2⟩
          rw [hrl] at hc
          simp only [runLookups, hq, hgps, hrl]
          simpa using hc
        | none =>
          have hgps : get_player_stats provider cache q =
              some (entryOf info, (q, entryOf info) :: cache) := by
            simp [get_player_stats, hq, hp]
          have hzero := runLookups_count_zero provider rest ((q, entryOf info) :: cache) q
            (by simp [cacheLookup])
          rcases hrl : runLookups provider ((q, entryOf info) :: cache) rest
            with ⟨calls, cache2⟩
          rw [hrl] at hzero
          simp only [runLookups, hq, hgps, hrl]
          simp [List.count_cons, hzero]
      · cases hq : cacheLookup cache q with
        | some e =>
          have hgps : get_player_stats provider cache q = some (e, cache) := by
            simp [get_player_stats, hq]
          have hc := ih cache
          rcases hrl : runLookups provider cache rest with ⟨calls, cache2⟩
          rw [hrl] at hc
          simp only [runLookups, hq, hgps, hrl]
          simpa using hc
        | none =>
          cases hpq : provider q with
          | none =>
            have hgps : get_player_stats provider cache q = none := by
              simp [get_player_stats, hq, hpq]
            have hc := ih cache
            rcases hrl : runLookups provider cache rest with ⟨calls, cache2⟩
            rw [hrl] at hc
            simp only [runLookups, hq, hgps, hrl]
            simp [List.count_cons, hqpid, hc]
          | some infoq =>
            have hgps : get_player_stats provider cache q =
                some (entryOf infoq, (q, entryOf infoq) :: cache) := by
              simp [get_player_stats, hq, hpq]
            have hc := ih ((q, entryOf infoq) :: cache)
            rcases hrl : runLookups provider ((q, entryOf infoq) :: cache) rest
              with ⟨calls, cache2⟩
            rw [hrl] at hc
            simp only [runLookups, hq, hgps, hrl]
            simp [List.count_cons, hqpid, hc]

/-- C7 witness: a cache hit returns the stored entry unchanged, and the
lookup sequence [3, 3, 4, 3] against an always-succeeding provider calls the
provider at most once for id 3. -/
theorem lookup_at_most_one_successful_call_witness :
    get_player_stats sampleProvider [(3, cachedEntry)] 3 =
      some (cachedEntry, [(3, cachedEntry)]) ∧
    ((runLookups sampleProvider [] [3, 3, 4, 3]).1.count 3) ≤ 1 :=
  ⟨(lookup_at_most_one_successful_call sampleProvider [(3, cachedEntry)] 3 cachedEntry
      skaterInfo []).1 rfl,
   (lookup_at_most_one_successful_call sampleProvider [] 3 cachedEntry skaterInfo
      [3, 3, 4, 3]).2 rfl⟩

/-- C7 counterexample: when the provider fails for id 7, two lookups of id 7
in one run make two external calls — nothing was stored by the first lookup,
so "at most one external call per id" does not hold as stated. -/
theorem lookup_calls_twice_on_provider_failure :
    ¬ ((runLookups (fun _ => none) ([] : Cache) [7, 7]).1.count 7 ≤ 1) := by decide

/-- C8: every row retained in the processed table has
`shot_value = numeric(danger_zone) + rebound + rush` with numeric mapping
low, med, high to 1, 2, 3; and the danger-zone classifier only ever emits
those three labels. -/
theorem processFenwick_shot_value (df : List ShotRow) (out : List ProcRow) (r : ProcRow) :
    (processFenwick df = some out → r ∈ out →
      ((r.danger_zone = "low" → r.shot_value = some (1 + (r.rebound : Int) + (r.rush : Int))) ∧
       (r.danger_zone = "med" → r.shot_value = some (2 + (r.rebound : Int) + (r.rush : Int))) ∧
       (r.danger_zone = "high" → r.shot_value = some (3 + (r.rebound : Int) + (r.rush : Int))))) ∧
    (∀ x y : ℚ, get_danger_zone x y = "low" ∨ get_danger_zone x y = "med" ∨
      get_danger_zone x y = "high") := by
  constructor
  · intro hpf hmem
    cases hwg : withGlove df with
    | none => simp [processFenwick, hwg] at hpf
    | some rows =>
      simp only [processFenwick, hwg, Option.some.injEq] at hpf
      subst hpf
      obtain ⟨rc, hrc, rfl⟩ := List.mem_map.mp hmem
      refine ⟨fun hz => ?_, fun hz => ?_, fun hz => ?_⟩ <;>
        · simp only [mkProcRow] at hz ⊢
          simp [danger_map, hz]
  · intro x y
    unfold get_danger_zone
    split_ifs <;> simp

/-- C8 witness: the sample med-danger row with rebound 0 and rush 1 gets
shot value 2 + 0 + 1 = 3. -/
theorem processFenwick_shot_value_witness :
    processFenwick [sampleRow] = some [mkProcRow sampleRow "RL"] ∧
    (mkProcRow sampleRow "RL").shot_value = some 3 := by
  constructor
  · rfl
  · have h := ((processFenwick_shot_value [sampleRow] [mkProcRow sampleRow "RL"]
      (mkProcRow sampleRow "RL")).1 rfl (by simp)).2.1 rfl
    rw [h]
    decide

/-- C10: `shot_on_glove` is derived over every input row before the
goaltender filter runs, so an input containing a row with the
(null, null, null) goaltender placeholder makes `processFenwick` raise
instead of returning the filtered table. -/
theorem processFenwick_errors_on_placeholder_goalie (df : List ShotRow) (r : ShotRow)
    (hmem : r ∈ df) (h1 : r.goalie_id = none) (h2 : r.goalie = none)
    (h3 : r.goalie_catches = none) (h4 : r.career_save_pct = none) :
    processFenwick df = none := by
  have key : ∀ l : List ShotRow, r ∈ l → withGlove l = none := by
    intro l
    induction l with
    | nil => intro h; cases h
    | cons hd tl ih =>
      intro h
      rcases List.mem_cons.mp h with rfl | h2m
      · simp [withGlove, h3]
      · cases hgc : hd.goalie_catches with
        | none => simp [withGlove, hgc]
        | some c => simp [withGlove, hgc, ih h2m]
  simp [processFenwick, key df hmem]

/-- C10 witness: a table holding one good row and one placeholder row makes
`processFenwick` fail, even though the placeholder row would have been
dropped by the goaltender filter. -/
theorem processFenwick_errors_witness :
    processFenwick [sampleRow, placeholderRow] = none :=
  processFenwick_errors_on_placeholder_goalie [sampleRow, placeholderRow] placeholderRow
    (by simp) rfl rfl rfl rfl

/-- C1 (amended): the per-event situation skip fires on the first character
of the situation code for a home shooter and on the fourth character for an
away shooter — under the code's own reading of the skater digits (away at
index 1, home at index 2) these are the goalie digits, not the shooting
team's skater count. -/
theorem processEvent_skips_on_situation_flags (provider : Int → Option PlayerInfo)
    (cache : Cache) (game_id homeId awayId : Int) (prev : Option PlayEvent)
    (play : PlayEvent) (t : Int)
    (hq : play.typeDescKey ∈ fenwickTypes)
    (ht : play.details.eventOwnerTeamId = some t)
    (hskip : (t = homeId ∧ sChar play.situationCode 0 = some '0') ∨
             (t ≠ homeId ∧ t = awayId ∧ sChar play.situationCode 3 = some '0')) :
    (processEvent provider cache game_id homeId awayId prev play).1 = none := by
  simp only [processEvent, if_pos hq, ht]
  rcases hskip with ⟨hth, h0⟩ | ⟨hne, hta, h3⟩
  · subst hth
    simp [situationSkip, h0]
  · subst hta
    simp [situationSkip, hne, h3]

/-- C1 witness: a home shooter's qualifying event whose situation code starts
with `0` is skipped. -/
theorem processEvent_skips_on_situation_flags_witness :
    (processEvent sampleProvider [] 1 100 200 none skipPlay).1 = none :=
  processEvent_skips_on_situation_flags sampleProvider [] 1 100 200 none skipPlay 100
    (by decide) rfl (Or.inl ⟨rfl, by decide⟩)

/-- C1 counterexample: a qualifying event with home = 1 whose situation code
reads 0 home skaters at index 2 (code `1501`) is not excluded — the
extractor emits a row with home = 1 and home_skaters = 0, contradicting the
claim that such events are excluded from the output entirely. -/
theorem processEvent_emits_zero_skater_home_row :
    sChar zeroSkaterPlay.situationCode 2 = some '0' ∧
    (processEvent sampleProvider [] 1 100 200 none zeroSkaterPlay).1.map
      (fun r => (r.home, r.home_skaters)) = some (1, 0) := by decide
